import Mathlib

/-!
Shallow embedding of the HTTP request/response core of `pypaca`
(`src/pypaca/rest/{rest,exceptions,pagination,credentials}.py`):
credential validation, auth-header construction, the retry dispatcher,
the error-body classifier and the pagination materializer, together with
theorems settling the specification claims about them.
-/

namespace Pypaca

/-- Decoded JSON values, as produced by Python's `json.loads`:
`int` mirrors a Python `int`, `float` a Python `float` (represented
exactly as a rational), `obj` a `dict` with its insertion-ordered,
duplicate-free key/value pairs. -/
inductive Json where
  | null
  | bool (b : Bool)
  | int (n : Int)
  | float (q : Rat)
  | str (s : String)
  | arr (elems : List Json)
  | obj (entries : List (String × Json))

/-- Python exceptions that the embedded code can raise. -/
inductive PyError where
  | jsonDecodeError
  | attributeError
  | typeError
  | valueError (msg : String)
  | stopIteration
deriving Repr, DecidableEq

/-- `d.get(k, None)` / `d[k]` on a decoded JSON object
(`entries` has unique keys, as a Python dict does). -/
def dictGet (k : String) (entries : List (String × Json)) : Option Json :=
  (entries.find? (fun kv => kv.1 == k)).map Prod.snd

/-- The keys of a decoded JSON object, i.e. Python's `_body.keys()`. -/
def dictKeys (entries : List (String × Json)) : List String :=
  entries.map Prod.fst

/-- `set(a) == set(b)` on two key lists. -/
def keySetEq (a b : List String) : Bool :=
  decide ((∀ x ∈ a, x ∈ b) ∧ (∀ x ∈ b, x ∈ a))

/-- The pydantic field annotations occurring in the error-body models. -/
inductive FieldType where
  | intField
  | floatField
  | strField
deriving Repr, DecidableEq

/-- Whether a decoded JSON value passes pydantic (v2, lax-mode) validation
against a field annotation: `int` accepts a Python int or an integral
float, `float` accepts any int or float, `str` accepts a string.
(The numeric-string coercions of lax mode are not modelled; no claim
exercises them.) -/
def validatesAs : Json → FieldType → Bool
  | .int _, .intField => true
  | .float q, .intField => q.den == 1
  | .int _, .floatField => true
  | .float _, .floatField => true
  | .str _, .strField => true
  | _, _ => false

/-- Pydantic's coercion of a validated value of an `int` field to the
stored Python int (the value `body.code` evaluates to). -/
def coerceInt : Json → Option Int
  | .int n => some n
  | .float q => if q.den == 1 then some q.num else none
  | _ => none

/-- `exceptions.py::ErrorBody`: fields `code : int`, `message : str`. -/
def errorBodyFields : List (String × FieldType) :=
  [("code", .intField), ("message", .strField)]

/-- `exceptions.py::BuyingPowerErrorBody`: `ErrorBody` plus
`buying_power : float`, `cost_basis : float`. -/
def buyingPowerErrorBodyFields : List (String × FieldType) :=
  errorBodyFields ++ [("buying_power", .floatField), ("cost_basis", .floatField)]

/-- `exceptions.py::PDTErrorBody`: `ErrorBody` plus the five
pattern-day-trading fields. -/
def pdtErrorBodyFields : List (String × FieldType) :=
  errorBodyFields ++
    [("day_trading_buying_power", .floatField), ("max_dtbp_used", .floatField),
     ("max_dtbp_used_so_far", .floatField), ("open_orders", .intField),
     ("symbol", .strField)]

/-- The three error-body model variants of `exceptions.py`. -/
inductive ErrorBodyVariant where
  | generic
  | buyingPower
  | pdt
deriving Repr, DecidableEq

/-- The declared pydantic fields of each variant. -/
def variantFields : ErrorBodyVariant → List (String × FieldType)
  | .generic => errorBodyFields
  | .buyingPower => buyingPowerErrorBodyFields
  | .pdt => pdtErrorBodyFields

/-- The declared field names of a variant, i.e.
`set(base_model.model_fields.keys())` as a list. -/
def variantFieldNames (v : ErrorBodyVariant) : List String :=
  (variantFields v).map Prod.fst

/-- The `_models` list of `APIError.body`, in source order:
`[ErrorBody, BuyingPowerErrorBody, PDTErrorBody]`. -/
def modelsInOrder : List ErrorBodyVariant :=
  [.generic, .buyingPower, .pdt]

/-- `TypeAdapter(base_model).validate_python(_body)` succeeds iff every
declared field is present in the payload with a value of the annotated
type (extra keys cannot occur here: the caller has already checked the
key sets are equal). -/
def validatePayload (fields : List (String × FieldType)) (entries : List (String × Json)) : Bool :=
  fields.all (fun ft =>
    match dictGet ft.1 entries with
    | some v => validatesAs v ft.2
    | none => false)

/-- Result of the `APIError.body` property: either a validated structured
variant (the pydantic model, kept here as the variant tag plus the
payload it was validated from) or the raw decoded map. -/
inductive BodyResult where
  | structured (v : ErrorBodyVariant) (entries : List (String × Json))
  | raw (entries : List (String × Json))

/-- The `for base_model in _models:` loop of `APIError.body`: return at
the first variant whose field-name set equals the payload's key set —
the validated model if validation succeeds, the raw map if it fails —
and fall through to the raw map when no variant matches. -/
def matchBody : List ErrorBodyVariant → List (String × Json) → BodyResult
  | [], entries => .raw entries
  | m :: rest, entries =>
    if keySetEq (variantFieldNames m) (dictKeys entries) then
      if validatePayload (variantFields m) entries then .structured m entries
      else .raw entries
    else matchBody rest entries

/-- `APIError.body` (`exceptions.py` lines 119-134). The response content
is `none` when `json.loads` would fail (body not valid JSON), otherwise
`some` of the decoded value; a decoded non-dict makes `_body.keys()`
raise. -/
def bodyAccessor (content : Option Json) : Except PyError BodyResult :=
  match content with
  | none => .error .jsonDecodeError
  | some (.obj entries) => .ok (matchBody modelsInOrder entries)
  | some _ => .error .attributeError

/-- Python's `int(x)` on a decoded JSON value, with the exception it
raises when conversion is impossible. -/
def pyInt : Json → Except PyError Int
  | .int n => .ok n
  | .bool b => .ok (if b then 1 else 0)
  | .float q => .ok (Int.tdiv q.num q.den)
  | .str s =>
    match s.trim.toInt? with
    | some n => .ok n
    | none => .error (.valueError "invalid literal for int() with base 10")
  | _ => .error .typeError

/-- `int(self.body.get("code", None))` on a raw-map body:
`int(None)` raises `TypeError`. -/
def rawCodeParse (entries : List (String × Json)) : Except PyError Int :=
  match dictGet "code" entries with
  | none => .error .typeError
  | some v => pyInt v

/-- `body.code` of a structured variant: the pydantic-coerced int stored
for the `code` field. -/
def structuredCode (entries : List (String × Json)) : Option Int :=
  (dictGet "code" entries).bind coerceInt

/-- `APIError.code` (`exceptions.py` lines 136-143): `self.body.code`
when the body matched a structured variant, else `int` of the raw map's
`"code"` entry. (The source's final
`int(json.loads(self.response.content)["code"])` line is unreachable:
a non-raising `body` is always either an `ErrorBody` instance or a
dict.) Any exception the `body` property raises propagates. -/
def codeAccessor (content : Option Json) : Except PyError Int :=
  match bodyAccessor content with
  | .error e => .error e
  | .ok (.structured _ entries) =>
    match structuredCode entries with
    | some n => .ok n
    | none => .error .typeError
  | .ok (.raw entries) => rawCodeParse entries

/-! ## Retry-aware dispatcher (`rest.py::RestClient._request` / `_one_request`) -/

/-- The body of one HTTP response: empty text, text decoding to a JSON
value, or non-empty text that is not valid JSON. -/
inductive RespBody where
  | empty
  | json (j : Json)
  | invalid

/-- One HTTP response as seen by `_one_request`. -/
structure HttpResponse where
  statusCode : Nat
  body : RespBody

/-- What one call of `_one_request` does. -/
inductive OneRequestResult where
  | ok (r : Option Json)
  | retryError
  | apiError (resp : HttpResponse)
  | jsonError

/-- `rest.py::RestClient._one_request` (lines 201-214):
`response.raise_for_status()` raises `HTTPError` exactly for status
codes in `[400, 600)`; on such an error, a status in the retry codes
with `retry > 0` raises `RetryError`, otherwise `APIError`; on success
the decoded JSON body is returned, or `None` for an empty body
(`response.json()` on invalid JSON raises). -/
def one_request (retryCodes : List Nat) (resp : HttpResponse) (retry : Int) : OneRequestResult :=
  if 400 ≤ resp.statusCode ∧ resp.statusCode < 600 then
    if resp.statusCode ∈ retryCodes ∧ 0 < retry then .retryError
    else .apiError resp
  else
    match resp.body with
    | .empty => .ok none
    | .json j => .ok (some j)
    | .invalid => .jsonError

/-- How a dispatched `_request` call ends: a value returned to the
caller, or an exception escaping the loop. -/
inductive RequestOutcome where
  | returned (r : Option Json)
  | raisedAPIError (resp : HttpResponse)
  | raisedJSONError

/-- Observable trace of one `_request` call: its outcome, the number of
HTTP attempts performed, and the list of `time.sleep` durations in
order. -/
structure DispatchTrace where
  outcome : RequestOutcome
  attemptsMade : Nat
  sleeps : List Nat

/-- The `while retry >= 0` loop of `_request` (lines 126-135), with the
sequence of responses the server gives to successive attempts supplied
as `attempts`. The loop runs at most `retry + 1` iterations (`retry`
decreases by one per iteration and the loop stops once it is negative),
so the `fuel` argument — instantiated with `(retry + 1).toNat` by
`request` below — is exact; it exists only to make the recursion
structural. -/
def requestLoopFuel (retryCodes : List Nat) (wait : Nat) (attempts : Nat → HttpResponse) :
    Nat → Nat → Int → DispatchTrace
  | 0, _, _ => ⟨.returned none, 0, []⟩
  | fuel + 1, idx, retry =>
    if retry < 0 then ⟨.returned none, 0, []⟩
    else
      match one_request retryCodes (attempts idx) retry with
      | .retryError =>
        let rest := requestLoopFuel retryCodes wait attempts fuel (idx + 1) (retry - 1)
        ⟨rest.outcome, rest.attemptsMade + 1, wait :: rest.sleeps⟩
      | .ok r => ⟨.returned r, 1, []⟩
      | .apiError resp => ⟨.raisedAPIError resp, 1, []⟩
      | .jsonError => ⟨.raisedJSONError, 1, []⟩

/-- `rest.py::RestClient._request`, reduced to its retry loop:
`retry = self._retry`, then loop while `retry >= 0`, sleeping
`self._retry_wait` and decrementing on each `RetryError`, returning
`None` if the loop exits. -/
def request (retryCodes : List Nat) (wait : Nat) (retryAttempts : Int)
    (attempts : Nat → HttpResponse) : DispatchTrace :=
  requestLoopFuel retryCodes wait attempts (retryAttempts + 1).toNat 0 retryAttempts

/-- The default retry status codes `(429, 504)`. -/
def defaultRetryCodes : List Nat := [429, 504]

/-! ## Pagination (`pagination.py`, `rest.py` lines 318-343) -/

/-- `enums.py::PaginationType` is a `str` enum; its members are these
string values, and the pagination functions compare against them. -/
def PaginationType.NONE : String := "none"

/-- `PaginationType.FULL`. -/
def PaginationType.FULL : String := "full"

/-- `PaginationType.ITERATOR`. -/
def PaginationType.ITERATOR : String := "iterator"

/-- A lazy iterator of result pages: the pages not yet pulled, in
order. -/
structure PageIterator (α : Type) where
  pages : List (List α)

/-- The value `return_paginated_result` hands back: a single page, a
flattened list, or the (unconsumed) iterator itself. -/
inductive PaginatedResult (α : Type) where
  | onePage (p : List α)
  | fullList (l : List α)
  | iter (it : PageIterator α)

/-- `pagination.py::return_paginated_result` (= the identical
`rest.py::RestClient._return_paginated_result`), in state-passing form:
the first component is the returned value or the exception raised, the
second the state of the source iterator after the call (which pages it
has not yet yielded). `NONE` pulls exactly one page via `next(iterator)`
(raising `StopIteration` when the iterator is exhausted), `FULL` drains
the iterator through `list(chain.from_iterable(iterator))`, `ITERATOR`
returns the iterator without consuming anything, and any other value
raises `ValueError`. -/
def return_paginated_result {α : Type} (it : PageIterator α) (handle_pagination : String) :
    Except PyError (PaginatedResult α) × PageIterator α :=
  if handle_pagination = PaginationType.NONE then
    match it.pages with
    | [] => (.error .stopIteration, ⟨[]⟩)
    | p :: rest => (.ok (.onePage p), ⟨rest⟩)
  else if handle_pagination = PaginationType.FULL then
    (.ok (.fullList it.pages.flatten), ⟨[]⟩)
  else if handle_pagination = PaginationType.ITERATOR then
    (.ok (.iter it), it)
  else
    (.error (.valueError ("Invalid pagination type: " ++ handle_pagination ++ ".")), it)

/-- `pagination.py::validate_pagination` (= the identical
`rest.py::RestClient._validate_pagination`): default a missing mode to
`FULL`, then reject a non-`FULL` mode combined with a set
`max_items_limit`. -/
def validate_pagination (max_items_limit : Option Int) (handle_pagination : Option String) :
    Except PyError String :=
  let hp := handle_pagination.getD PaginationType.FULL
  if hp ≠ PaginationType.FULL ∧ max_items_limit ≠ none then
    .error (.valueError "max_items_limit can only be specified for PaginationType.FULL")
  else
    .ok hp

/-- Modelled from the spec: no caller inside the repository composes
`validate_pagination` with `return_paginated_result` (the paginated
endpoints that would are not under `src/`); the spec states the
validation precondition is "enforced before materialization begins", so
the pipeline validates first and only then touches the page iterator. -/
def materialize {α : Type} (it : PageIterator α) (max_items_limit : Option Int)
    (handle_pagination : Option String) :
    Except PyError (PaginatedResult α) × PageIterator α :=
  match validate_pagination max_items_limit handle_pagination with
  | .error e => (.error e, it)
  | .ok hp => return_paginated_result it hp

/-! ## Credentials (`rest.py` lines 345-377, `credentials.py`) -/

/-- Python truthiness of an `Optional[str]`: `None` and `""` are falsy. -/
def truthy : Option String → Bool
  | none => false
  | some s => !s.isEmpty

/-- `rest.py::RestClient._validate_credentials` (lines 345-377): the
three checks, in source order, on the explicit arguments. -/
def validate_credentials (api_key secret_key oauth_token : Option String) :
    Except PyError (Option String × Option String × Option String) :=
  if !truthy oauth_token && !truthy api_key then
    .error (.valueError "You must supply a method of authentication")
  else if truthy oauth_token && (truthy api_key || truthy secret_key) then
    .error (.valueError "Either an oauth_token or an api_key may be supplied, but not both")
  else if !truthy oauth_token && !(truthy api_key && truthy secret_key) then
    .error (.valueError "A corresponding secret_key must be supplied with the api_key")
  else
    .ok (api_key, secret_key, oauth_token)

/-- Process-wide environment-backed configuration: the values an
`.env`-style source would supply for the three credential fields (the
fields of `credentials.py::Credentials`, a pydantic `BaseSettings`). -/
structure EnvConfig where
  api_key : Option String
  secret_key : Option String
  oauth_token : Option String

/-- Credential resolution as `RestClient.__init__` performs it (line 49):
it passes the explicit constructor arguments straight to
`_validate_credentials`, which reads nothing else — the environment is
not an input of the computation, so it is ignored here by construction
(the env-reading `credentials.py::Credentials` settings class is never
used by `RestClient`). -/
def clientResolveCredentials (_env : EnvConfig) (api_key secret_key oauth_token : Option String) :
    Except PyError (Option String × Option String × Option String) :=
  validate_credentials api_key secret_key oauth_token

/-- `credentials.py::Credentials` construction with pydantic-settings
semantics: explicitly passed fields win, otherwise the environment
supplies the value; then the `validate_credentials` model validator
(same three checks as `rest.py`) runs. -/
def credentialsSettings (env : EnvConfig) (api_key secret_key oauth_token : Option String) :
    Except PyError (Option String × Option String × Option String) :=
  validate_credentials (api_key <|> env.api_key) (secret_key <|> env.secret_key)
    (oauth_token <|> env.oauth_token)

/-! ## Auth headers (`rest.py` lines 137-175) -/

/-- `pypaca.__version__`. -/
def pypacaVersion : String := "0.0.1"

/-- Python's `f"{x}"` on an `Optional[str]`. -/
def pyStr : Option String → String
  | none => "None"
  | some s => s

/-- The standard base64 alphabet, as a list of characters. -/
def base64Alphabet : List Char :=
  "ABCDEFGHIJKLMNOPQRSTUVWXYZabcdefghijklmnopqrstuvwxyz0123456789+/".toList

/-- The base64 character for a 6-bit group. -/
def base64Char (n : Nat) : Char :=
  base64Alphabet.getD (n % 64) '?'

/-- Base64-encode a byte list (values < 256), with `=` padding —
`base64.b64encode`. -/
def base64EncodeBytes : List Nat → String
  | b1 :: b2 :: b3 :: rest =>
    let n := b1 * 65536 + b2 * 256 + b3
    String.mk [base64Char (n / 262144), base64Char (n / 4096 % 64),
      base64Char (n / 64 % 64), base64Char (n % 64)] ++ base64EncodeBytes rest
  | [b1, b2] =>
    let n := b1 * 65536 + b2 * 256
    String.mk [base64Char (n / 262144), base64Char (n / 4096 % 64),
      base64Char (n / 64 % 64)] ++ "="
  | [b1] =>
    let n := b1 * 65536
    String.mk [base64Char (n / 262144), base64Char (n / 4096 % 64)] ++ "=="
  | [] => ""

/-- UTF-8 encoding of one character (Python `str.encode()`), as byte
values. -/
def utf8Bytes (c : Char) : List Nat :=
  let n := c.toNat
  if n < 128 then [n]
  else if n < 2048 then [192 + n / 64, 128 + n % 64]
  else if n < 65536 then [224 + n / 4096, 128 + n / 64 % 64, 128 + n % 64]
  else [240 + n / 262144, 128 + n / 4096 % 64, 128 + n / 64 % 64, 128 + n % 64]

/-- `base64.b64encode(s.encode()).decode("utf-8")`. -/
def base64Encode (s : String) : String :=
  base64EncodeBytes (s.toList.flatMap utf8Bytes)

/-- The authentication-relevant fields of a constructed `RestClient`. -/
structure ClientAuthState where
  api_key : Option String
  secret_key : Option String
  oauth_token : Option String
  use_basic_auth : Bool

/-- `rest.py::RestClient._get_auth_headers` (lines 153-175): a bearer
`Authorization` header when the oauth token is truthy, else a basic-auth
`Authorization` header when `use_basic_auth` is set, else the two
key/secret headers. Header values mirror Python dict values, so a `None`
key is stored as `none`. -/
def get_auth_headers (c : ClientAuthState) : List (String × Option String) :=
  if truthy c.oauth_token then
    [("Authorization", some ("Bearer " ++ pyStr c.oauth_token))]
  else if c.use_basic_auth then
    [("Authorization",
      some ("Basic " ++ base64Encode (pyStr c.api_key ++ ":" ++ pyStr c.secret_key)))]
  else
    [("APCA-API-KEY-ID", c.api_key), ("APCA-API-SECRET-KEY", c.secret_key)]

/-- `rest.py::RestClient._get_default_headers` (lines 137-151): the auth
headers plus the `User-Agent` entry. -/
def get_default_headers (c : ClientAuthState) : List (String × Option String) :=
  get_auth_headers c ++ [("User-Agent", some ("APCA-PY/" ++ pypacaVersion))]

/-- Whether `s` starts with `pre` (character-wise). -/
def strStartsWith (s pre : String) : Bool :=
  pre.toList.isPrefixOf s.toList

/-- How many entries of a header list carry a bearer `Authorization`
value. -/
def countBearer (hs : List (String × Option String)) : Nat :=
  (hs.filter (fun h =>
    h.1 == "Authorization" &&
      match h.2 with
      | some v => strStartsWith v "Bearer "
      | none => false)).length

/-- How many entries of a header list carry a basic-auth `Authorization`
value. -/
def countBasic (hs : List (String × Option String)) : Nat :=
  (hs.filter (fun h =>
    h.1 == "Authorization" &&
      match h.2 with
      | some v => strStartsWith v "Basic "
      | none => false)).length

/-- How many entries of a header list are the separate key/secret
headers. -/
def countKeyHeaders (hs : List (String × Option String)) : Nat :=
  (hs.filter (fun h => h.1 == "APCA-API-KEY-ID" || h.1 == "APCA-API-SECRET-KEY")).length

/-! ## Helper observers -/

/-- Whether an embedded computation succeeded. -/
def exceptOk {β : Type} : Except PyError β → Bool
  | .ok _ => true
  | .error _ => false

/-- Whether an embedded computation raised the configuration error
(`ValueError` in the source, `ConfigurationError` in the spec). -/
def isConfigError {β : Type} : Except PyError β → Bool
  | .error (.valueError _) => true
  | _ => false

/-! ## Theorems -/

/-- C5: for every lazy sequence of pages, `NONE` returns exactly the
first page and pulls no further page (the iterator afterwards still
holds exactly the remaining pages), `FULL` returns the concatenation of
all pages in page order and within-page order, `ITERATOR` returns the
sequence itself with nothing consumed, and any other mode value
fails. -/
theorem paginated_result_modes {α : Type} (it : PageIterator α) :
    (∀ p rest, it.pages = p :: rest →
      return_paginated_result it PaginationType.NONE = (.ok (.onePage p), ⟨rest⟩))
    ∧ return_paginated_result it PaginationType.FULL =
        (.ok (.fullList it.pages.flatten), ⟨[]⟩)
    ∧ return_paginated_result it PaginationType.ITERATOR = (.ok (.iter it), it)
    ∧ (∀ s : String, s ≠ PaginationType.NONE → s ≠ PaginationType.FULL →
        s ≠ PaginationType.ITERATOR →
        return_paginated_result it s =
          (.error (.valueError ("Invalid pagination type: " ++ s ++ ".")), it)) := by
  refine ⟨?_, ?_, ?_, ?_⟩
  · intro p rest h
    simp [return_paginated_result, h, PaginationType.NONE, PaginationType.FULL,
      PaginationType.ITERATOR]
  · simp [return_paginated_result, PaginationType.NONE, PaginationType.FULL,
      PaginationType.ITERATOR]
  · simp [return_paginated_result, PaginationType.NONE, PaginationType.FULL,
      PaginationType.ITERATOR]
  · intro s h1 h2 h3
    simp [return_paginated_result, h1, h2, h3]

/-- C5 witness: three pages of sizes `[2, 3, 1]`. -/
theorem paginated_result_modes_witness :
    (PageIterator.mk [[1, 2], [3, 4, 5], [6]] : PageIterator Nat).pages =
        [1, 2] :: [[3, 4, 5], [6]]
    ∧ return_paginated_result (⟨[[1, 2], [3, 4, 5], [6]]⟩ : PageIterator Nat)
        PaginationType.NONE = (.ok (.onePage [1, 2]), ⟨[[3, 4, 5], [6]]⟩)
    ∧ return_paginated_result (⟨[[1, 2], [3, 4, 5], [6]]⟩ : PageIterator Nat)
        PaginationType.FULL = (.ok (.fullList [1, 2, 3, 4, 5, 6]), ⟨[]⟩)
    ∧ ("bogus" : String) ≠ PaginationType.NONE
    ∧ return_paginated_result (⟨[[1, 2], [3, 4, 5], [6]]⟩ : PageIterator Nat) "bogus" =
        (.error (.valueError "Invalid pagination type: bogus."), ⟨[[1, 2], [3, 4, 5], [6]]⟩) :=
  ⟨rfl,
   (paginated_result_modes _).1 [1, 2] [[3, 4, 5], [6]] rfl,
   (paginated_result_modes _).2.1,
   by decide,
   (paginated_result_modes _).2.2.2 "bogus" (by decide) (by decide) (by decide)⟩

/-- C10: on an empty sequence of pages, `NONE` fails (`next` has no page
to yield) rather than returning an empty page or list, while `FULL`
succeeds with an empty list and `ITERATOR` succeeds with the empty
sequence. -/
theorem paginated_result_empty_sequence (α : Type) :
    return_paginated_result (⟨[]⟩ : PageIterator α) PaginationType.NONE =
        (.error .stopIteration, ⟨[]⟩)
    ∧ return_paginated_result (⟨[]⟩ : PageIterator α) PaginationType.FULL =
        (.ok (.fullList []), ⟨[]⟩)
    ∧ return_paginated_result (⟨[]⟩ : PageIterator α) PaginationType.ITERATOR =
        (.ok (.iter ⟨[]⟩), ⟨[]⟩) :=
  ⟨rfl, rfl, rfl⟩

/-- C6: pagination validation raises the configuration error exactly
when `max_items_limit` is set and the (defaulted) mode is not `FULL`;
any such failure happens before the page iterator is touched: the
pipeline then returns with the iterator in its initial state, no page
pulled. -/
theorem pagination_limit_validation {α : Type} (lim : Option Int) (hp : Option String)
    (it : PageIterator α) :
    (isConfigError (validate_pagination lim hp) = true ↔
      lim ≠ none ∧ hp.getD PaginationType.FULL ≠ PaginationType.FULL)
    ∧ (exceptOk (validate_pagination lim hp) = false ↔
      lim ≠ none ∧ hp.getD PaginationType.FULL ≠ PaginationType.FULL)
    ∧ (∀ e, validate_pagination lim hp = .error e →
      materialize it lim hp = (.error e, it)) := by
  refine ⟨?_, ?_, ?_⟩
  · by_cases h : hp.getD PaginationType.FULL ≠ PaginationType.FULL ∧ lim ≠ none
    · simp [validate_pagination, isConfigError, if_pos h, h.1, h.2]
    · simp only [validate_pagination, if_neg h, isConfigError]
      simp only [not_and] at h
      tauto
  · by_cases h : hp.getD PaginationType.FULL ≠ PaginationType.FULL ∧ lim ≠ none
    · simp [validate_pagination, exceptOk, if_pos h, h.1, h.2]
    · simp only [validate_pagination, if_neg h, exceptOk]
      simp only [not_and] at h
      tauto
  · intro e he
    simp [materialize, he]

/-- C6 witness: `max_items_limit = 10` with mode `NONE` fails with the
configuration error, leaving the iterator untouched. -/
theorem pagination_limit_validation_witness :
    isConfigError (validate_pagination (some 10) (some PaginationType.NONE)) = true
    ∧ materialize (⟨[[1, 2], [3]]⟩ : PageIterator Nat) (some 10) (some PaginationType.NONE) =
        (.error (.valueError "max_items_limit can only be specified for PaginationType.FULL"),
          ⟨[[1, 2], [3]]⟩) :=
  ⟨(pagination_limit_validation (some 10) (some PaginationType.NONE)
      (⟨[[1, 2], [3]]⟩ : PageIterator Nat)).1.mpr (by decide),
   (pagination_limit_validation (some 10) (some PaginationType.NONE)
      (⟨[[1, 2], [3]]⟩ : PageIterator Nat)).2.2 _ rfl⟩

/-- The credential combinations the claim calls valid: both keys with no
oauth token, or the oauth token alone (Python truthiness: `None` and
`""` do not count as supplied). -/
def acceptedCredentialCombo (api_key secret_key oauth_token : Option String) : Bool :=
  (truthy oauth_token && !truthy api_key && !truthy secret_key) ||
    (!truthy oauth_token && truthy api_key && truthy secret_key)

/-- C7: the credential validator accepts exactly the valid combinations
(api and secret keys together without an oauth token, or an oauth token
alone) and raises the configuration error on every other combination —
no auth method, oauth token together with either key, or a key without
its pair. -/
theorem credential_validator_contract (api_key secret_key oauth_token : Option String) :
    exceptOk (validate_credentials api_key secret_key oauth_token) =
      acceptedCredentialCombo api_key secret_key oauth_token
    ∧ isConfigError (validate_credentials api_key secret_key oauth_token) =
      !acceptedCredentialCombo api_key secret_key oauth_token := by
  cases ho : truthy oauth_token <;> cases ha : truthy api_key <;>
    cases hs : truthy secret_key <;>
      simp [validate_credentials, acceptedCredentialCombo, exceptOk, isConfigError, ho, ha, hs]

/-- C8: `RestClient` construction never falls back to the environment:
credential resolution is a function of the explicit arguments only, so
with no argument supplied it raises the no-auth-method error whatever
the environment holds — while the unused `credentials.py::Credentials`
settings class would have let the environment fill the missing
fields. -/
theorem client_ignores_environment (env : EnvConfig) :
    clientResolveCredentials env none none none =
      .error (.valueError "You must supply a method of authentication")
    ∧ credentialsSettings env none none none =
        validate_credentials env.api_key env.secret_key env.oauth_token := by
  exact ⟨rfl, rfl⟩

theorem isPrefixOf_append_self (l₁ l₂ : List Char) : l₁.isPrefixOf (l₁ ++ l₂) = true := by
  induction l₁ with
  | nil => simp [List.isPrefixOf]
  | cons a as ih => simp [List.isPrefixOf, ih]

theorem strStartsWith_append_self (pre s : String) : strStartsWith (pre ++ s) pre = true := by
  cases pre with
  | mk l₁ =>
    cases s with
    | mk l₂ => exact isPrefixOf_append_self l₁ l₂

theorem bearer_not_basic (s : String) : strStartsWith ("Bearer " ++ s) "Basic " = false := by
  cases s with
  | mk l => rfl

theorem basic_not_bearer (s : String) : strStartsWith ("Basic " ++ s) "Bearer " = false := by
  cases s with
  | mk l => rfl

/-- C9: the default headers of every constructed client state carry
exactly one authentication scheme, picked by the fixed priority: the
bearer `Authorization` header when the oauth token is set (even if
`use_basic_auth` is also enabled), else the base64 basic-auth
`Authorization` header when `use_basic_auth` is enabled, else the two
separate key/secret headers — header construction is a total function
of the client state. -/
theorem auth_headers_single_scheme (c : ClientAuthState) :
    (truthy c.oauth_token = true →
      countBearer (get_default_headers c) = 1 ∧ countBasic (get_default_headers c) = 0
        ∧ countKeyHeaders (get_default_headers c) = 0)
    ∧ (truthy c.oauth_token = false → c.use_basic_auth = true →
      countBearer (get_default_headers c) = 0 ∧ countBasic (get_default_headers c) = 1
        ∧ countKeyHeaders (get_default_headers c) = 0)
    ∧ (truthy c.oauth_token = false → c.use_basic_auth = false →
      countBearer (get_default_headers c) = 0 ∧ countBasic (get_default_headers c) = 0
        ∧ countKeyHeaders (get_default_headers c) = 2) := by
  refine ⟨fun h => ?_, fun h hb => ?_, fun h hb => ?_⟩
  · simp [get_default_headers, get_auth_headers, h, countBearer, countBasic, countKeyHeaders,
      List.filter, strStartsWith_append_self, bearer_not_basic]
  · simp [get_default_headers, get_auth_headers, h, hb, countBearer, countBasic, countKeyHeaders,
      List.filter, strStartsWith_append_self, basic_not_bearer]
  · simp [get_default_headers, get_auth_headers, h, hb, countBearer, countBasic, countKeyHeaders,
      List.filter]

/-- C9 witness: an oauth token set together with `use_basic_auth`
produces the bearer header, and it alone. -/
theorem auth_headers_single_scheme_witness :
    truthy (ClientAuthState.mk (some "key") (some "secret") (some "tok") true).oauth_token = true
    ∧ countBearer (get_default_headers ⟨some "key", some "secret", some "tok", true⟩) = 1
    ∧ countBasic (get_default_headers ⟨some "key", some "secret", some "tok", true⟩) = 0
    ∧ countKeyHeaders (get_default_headers ⟨some "key", some "secret", some "tok", true⟩) = 0 :=
  ⟨rfl,
   ((auth_headers_single_scheme ⟨some "key", some "secret", some "tok", true⟩).1 rfl).1,
   ((auth_headers_single_scheme ⟨some "key", some "secret", some "tok", true⟩).1 rfl).2.1,
   ((auth_headers_single_scheme ⟨some "key", some "secret", some "tok", true⟩).1 rfl).2.2⟩

/-- A server that answers every attempt with an empty-bodied HTTP 429. -/
def all429 : Nat → HttpResponse := fun _ => ⟨429, .empty⟩

/-- One unfolding step of the retry loop on a `RetryError` iteration. -/
theorem requestLoopFuel_retry_step (codes : List Nat) (wait : Nat)
    (attempts : Nat → HttpResponse) (fuel idx : Nat) (retry : Int)
    (h1 : ¬ retry < 0) (h2 : one_request codes (attempts idx) retry = .retryError) :
    requestLoopFuel codes wait attempts (fuel + 1) idx retry =
      ⟨(requestLoopFuel codes wait attempts fuel (idx + 1) (retry - 1)).outcome,
       (requestLoopFuel codes wait attempts fuel (idx + 1) (retry - 1)).attemptsMade + 1,
       wait :: (requestLoopFuel codes wait attempts fuel (idx + 1) (retry - 1)).sleeps⟩ := by
  simp only [requestLoopFuel, if_neg h1, h2]

/-- When every response carries a retryable error status, the retry loop
burns one attempt per iteration, sleeps after each but the last, and its
final iteration — entered with `retry = 0` — raises `APIError`, because
`_one_request` only converts a retryable status into `RetryError` while
`retry > 0`. -/
theorem requestLoopFuel_all_retryable (codes : List Nat) (wait : Nat)
    (attempts : Nat → HttpResponse)
    (h : ∀ i, (attempts i).statusCode ∈ codes ∧ 400 ≤ (attempts i).statusCode ∧
      (attempts i).statusCode < 600) :
    ∀ (n idx : Nat), requestLoopFuel codes wait attempts (n + 1) idx (n : Int) =
      ⟨.raisedAPIError (attempts (idx + n)), n + 1, List.replicate n wait⟩ := by
  intro n
  induction n with
  | zero =>
    intro idx
    simp [requestLoopFuel, one_request, (h idx).1, (h idx).2.1, (h idx).2.2]
  | succ m ih =>
    intro idx
    have hc : ((m + 1 : Nat) : Int) - 1 = (m : Int) := by push_cast; ring
    have hone : one_request codes (attempts idx) ((m + 1 : Nat) : Int) = .retryError := by
      simp [one_request, (h idx).1, (h idx).2.1, (h idx).2.2]
    have hneg : ¬ (((m + 1 : Nat) : Int) < 0) := by omega
    have hidx : idx + 1 + m = idx + (m + 1) := by omega
    rw [requestLoopFuel_retry_step codes wait attempts (m + 1) idx _ hneg hone, hc, ih (idx + 1)]
    simp [List.replicate_succ, hidx]

/-- C2: with `retry_attempts = 3` and every attempt answered HTTP 429,
the dispatcher performs exactly 4 HTTP attempts (1 initial + 3 retries)
and sleeps `retry_wait_seconds` between each pair of consecutive
attempts (3 sleeps, none after the final attempt). -/
theorem dispatcher_429_attempt_count (wait : Nat) (attempts : Nat → HttpResponse)
    (h : ∀ i, (attempts i).statusCode = 429) :
    (request defaultRetryCodes wait 3 attempts).attemptsMade = 4
    ∧ (request defaultRetryCodes wait 3 attempts).sleeps = List.replicate 3 wait := by
  have h' : ∀ i, (attempts i).statusCode ∈ defaultRetryCodes ∧
      400 ≤ (attempts i).statusCode ∧ (attempts i).statusCode < 600 := by
    intro i
    rw [h i]
    exact ⟨by decide, by decide, by decide⟩
  have hl := requestLoopFuel_all_retryable defaultRetryCodes wait attempts h' 3 0
  constructor
  · show (requestLoopFuel defaultRetryCodes wait attempts (3 + 1) 0 ((3 : Nat) : Int)).attemptsMade = 4
    rw [hl]
  · show (requestLoopFuel defaultRetryCodes wait attempts (3 + 1) 0 ((3 : Nat) : Int)).sleeps =
      List.replicate 3 wait
    rw [hl]

/-- C2 witness: the concrete all-429 server. -/
theorem dispatcher_429_attempt_count_witness :
    (∀ i, (all429 i).statusCode = 429)
    ∧ (request defaultRetryCodes 3 3 all429).attemptsMade = 4
    ∧ (request defaultRetryCodes 3 3 all429).sleeps = List.replicate 3 3 :=
  ⟨fun _ => rfl,
   (dispatcher_429_attempt_count 3 all429 fun _ => rfl).1,
   (dispatcher_429_attempt_count 3 all429 fun _ => rfl).2⟩

/-- C1 counterexample: with the default configuration
(`retry_attempts = 3`, retryable codes `{429, 504}`) and every attempt
answered HTTP 429, the dispatcher does not return the `None` sentinel —
its final attempt raises `APIError`, which escapes to the caller. -/
theorem retry_exhaustion_counterexample :
    (request defaultRetryCodes 3 3 all429).outcome = .raisedAPIError (all429 3)
    ∧ (request defaultRetryCodes 3 3 all429).outcome ≠ RequestOutcome.returned none := by
  have he : (request defaultRetryCodes 3 3 all429).outcome = .raisedAPIError (all429 3) := rfl
  exact ⟨he, by rw [he]; exact fun hc => RequestOutcome.noConfusion hc⟩

/-- C1 as amended: when every HTTP attempt returns a retryable error
status and the configured attempts (any `retry_attempts ≥ 0`) are
exhausted, the dispatcher raises the final attempt's `APIError` after
exactly `retry_attempts + 1` attempts instead of returning the `None`
sentinel; the sentinel is returned — without any HTTP attempt — only
when `retry_attempts` is negative, so the loop body never runs. -/
theorem dispatcher_exhaustion_raises (codes : List Nat) (wait : Nat) (rAttempts : Nat)
    (attempts : Nat → HttpResponse)
    (h : ∀ i, (attempts i).statusCode ∈ codes ∧ 400 ≤ (attempts i).statusCode ∧
      (attempts i).statusCode < 600) :
    (request codes wait (rAttempts : Int) attempts).outcome =
        .raisedAPIError (attempts rAttempts)
    ∧ (request codes wait (rAttempts : Int) attempts).attemptsMade = rAttempts + 1
    ∧ (∀ neg : Int, neg < 0 → request codes wait neg attempts = ⟨.returned none, 0, []⟩) := by
  have hfuel : (((rAttempts : Nat) : Int) + 1).toNat = rAttempts + 1 := by omega
  have hl := requestLoopFuel_all_retryable codes wait attempts h rAttempts 0
  refine ⟨?_, ?_, ?_⟩
  · simp only [request, hfuel, hl, Nat.zero_add]
  · simp only [request, hfuel, hl]
  · intro neg hneg
    have h0 : (neg + 1).toNat = 0 := by omega
    simp only [request, h0, requestLoopFuel]

/-- Every response of the all-429 server carries a retryable error
status under the default configuration. -/
theorem all429_retryable : ∀ i, (all429 i).statusCode ∈ defaultRetryCodes ∧
    400 ≤ (all429 i).statusCode ∧ (all429 i).statusCode < 600 := by
  intro i
  refine ⟨?_, ?_, ?_⟩ <;> simp [all429, defaultRetryCodes]

/-- C1 amended-claim witness: the concrete all-429 server under the
default configuration. -/
theorem dispatcher_exhaustion_raises_witness :
    (∀ i, (all429 i).statusCode ∈ defaultRetryCodes ∧ 400 ≤ (all429 i).statusCode ∧
      (all429 i).statusCode < 600)
    ∧ (request defaultRetryCodes 3 ((3 : Nat) : Int) all429).outcome =
        .raisedAPIError (all429 3)
    ∧ (request defaultRetryCodes 3 ((3 : Nat) : Int) all429).attemptsMade = 4 :=
  ⟨all429_retryable,
   (dispatcher_exhaustion_raises defaultRetryCodes 3 3 all429 all429_retryable).1,
   (dispatcher_exhaustion_raises defaultRetryCodes 3 3 all429 all429_retryable).2.1⟩

theorem keySetEq_iff (a b : List String) :
    keySetEq a b = true ↔ (∀ x ∈ a, x ∈ b) ∧ (∀ x ∈ b, x ∈ a) := by
  simp [keySetEq]

theorem dictGet_cons (k : String) (kv : String × Json) (rest : List (String × Json)) :
    dictGet k (kv :: rest) = if kv.1 == k then some kv.2 else dictGet k rest := by
  by_cases hk : (kv.1 == k) = true <;> simp [dictGet, List.find?, hk]

theorem dictGet_isSome_of_mem (k : String) (entries : List (String × Json))
    (h : k ∈ dictKeys entries) : (dictGet k entries).isSome = true := by
  induction entries with
  | nil => simp [dictKeys] at h
  | cons kv rest ih =>
    rw [dictGet_cons]
    by_cases hk : (kv.1 == k) = true
    · simp [hk]
    · have hmem : k ∈ dictKeys rest := by
        simp only [dictKeys, List.map_cons, List.mem_cons] at h
        rcases h with h | h
        · exact absurd (by simp [h]) hk
        · exact h
      simp [hk, ih hmem]

theorem matchBody_structured (ms : List ErrorBodyVariant) (entries es' : List (String × Json))
    (v : ErrorBodyVariant) (h : matchBody ms entries = .structured v es') :
    es' = entries ∧ validatePayload (variantFields v) entries = true := by
  induction ms with
  | nil => simp [matchBody] at h
  | cons m rest ih =>
    by_cases h1 : keySetEq (variantFieldNames m) (dictKeys entries) = true
    · rw [matchBody, if_pos h1] at h
      by_cases h2 : validatePayload (variantFields m) entries = true
      · rw [if_pos h2] at h
        injection h with hv he
        subst hv
        exact ⟨he.symm, h2⟩
      · rw [if_neg h2] at h
        simp at h
    · rw [matchBody, if_neg h1] at h
      exact ih h

theorem matchBody_all_false (ms : List ErrorBodyVariant) (entries : List (String × Json))
    (h : ∀ v ∈ ms, keySetEq (variantFieldNames v) (dictKeys entries) = false) :
    matchBody ms entries = .raw entries := by
  induction ms with
  | nil => rfl
  | cons m rest ih =>
    rw [matchBody, if_neg (by simp [h m (List.mem_cons_self m rest)])]
    exact ih fun v hv => h v (List.mem_cons_of_mem m hv)

theorem matchBody_eq_find (ms : List ErrorBodyVariant) (entries : List (String × Json)) :
    matchBody ms entries =
      match ms.find? (fun v => keySetEq (variantFieldNames v) (dictKeys entries)) with
      | some v =>
        if validatePayload (variantFields v) entries then .structured v entries
        else .raw entries
      | none => .raw entries := by
  induction ms with
  | nil => rfl
  | cons m rest ih =>
    by_cases h1 : keySetEq (variantFieldNames m) (dictKeys entries) = true
    · rw [matchBody, if_pos h1]
      simp only [List.find?_cons, h1]
    · rw [matchBody, if_neg h1, ih]
      have h1f : keySetEq (variantFieldNames m) (dictKeys entries) = false := by
        simpa using h1
      simp only [List.find?_cons, h1f]

/-- C3: on a JSON-object error body, the classifier selects the first
variant in the fixed order Generic, BuyingPower, PDT whose declared
field-name set equals the payload's key set exactly (a `find?` over
`modelsInOrder`), keeping the validated variant or — when validation of
the matched variant fails, or no variant's field set matches — the raw
decoded map; in particular a payload whose key set is
`{code, message, buying_power, cost_basis}` is classified as the
BuyingPower variant, not Generic. -/
theorem error_body_variant_selection (entries : List (String × Json)) :
    bodyAccessor (some (.obj entries)) = .ok (
      match modelsInOrder.find? (fun v => keySetEq (variantFieldNames v) (dictKeys entries)) with
      | some v =>
        if validatePayload (variantFields v) entries then .structured v entries
        else .raw entries
      | none => .raw entries)
    ∧ (keySetEq (dictKeys entries) ["code", "message", "buying_power", "cost_basis"] = true →
      bodyAccessor (some (.obj entries)) = .ok
        (if validatePayload buyingPowerErrorBodyFields entries then
          BodyResult.structured .buyingPower entries
        else .raw entries)) := by
  constructor
  · show (Except.ok (matchBody modelsInOrder entries) : Except PyError BodyResult) = _
    rw [matchBody_eq_find]
  · intro h
    have hbp : keySetEq (variantFieldNames .buyingPower) (dictKeys entries) = true := by
      rw [keySetEq_iff] at h ⊢
      exact ⟨h.2, h.1⟩
    have hbpmem : ("buying_power" : String) ∈ dictKeys entries := by
      rw [keySetEq_iff] at h
      exact h.2 _ (by decide)
    have hgen : keySetEq (variantFieldNames .generic) (dictKeys entries) = false := by
      by_contra hh
      rw [Bool.not_eq_false, keySetEq_iff] at hh
      have := hh.2 _ hbpmem
      revert this
      decide
    show (Except.ok (matchBody modelsInOrder entries) : Except PyError BodyResult) = _
    simp [modelsInOrder, matchBody, hgen, hbp, variantFields]

/-- An insufficient-buying-power payload with exactly the BuyingPower
field set. -/
def bpPayload : List (String × Json) :=
  [("code", .int 40310000), ("message", .str "insufficient buying power"),
   ("buying_power", .int 30000), ("cost_basis", .int 45000)]

/-- C3 witness: the concrete BuyingPower payload is classified as the
BuyingPower variant. -/
theorem error_body_variant_selection_witness :
    keySetEq (dictKeys bpPayload) ["code", "message", "buying_power", "cost_basis"] = true
    ∧ bodyAccessor (some (.obj bpPayload)) = .ok
        (if validatePayload buyingPowerErrorBodyFields bpPayload then
          BodyResult.structured .buyingPower bpPayload
        else .raw bpPayload)
    ∧ validatePayload buyingPowerErrorBodyFields bpPayload = true
    ∧ bodyAccessor (some (.obj bpPayload)) = .ok (.structured .buyingPower bpPayload) :=
  ⟨by decide, (error_body_variant_selection bpPayload).2 (by decide), by decide, rfl⟩

theorem validatesAs_int_coerce (j : Json) (h : validatesAs j .intField = true) :
    ∃ n, coerceInt j = some n := by
  cases j with
  | int n => exact ⟨n, rfl⟩
  | float q =>
    simp only [validatesAs] at h
    exact ⟨q.num, by simp [coerceInt, h]⟩
  | _ => simp [validatesAs] at h

theorem validated_structuredCode (fields : List (String × FieldType))
    (entries : List (String × Json)) (hmem : ("code", FieldType.intField) ∈ fields)
    (h : validatePayload fields entries = true) : ∃ n, structuredCode entries = some n := by
  rw [validatePayload, List.all_eq_true] at h
  have := h _ hmem
  cases hg : dictGet "code" entries with
  | none => rw [hg] at this; simp at this
  | some jv =>
    rw [hg] at this
    obtain ⟨n, hn⟩ := validatesAs_int_coerce jv this
    exact ⟨n, by simp [structuredCode, hg, hn]⟩

/-- C4: the `code` accessor returns `body.code` whenever the body
matched a structured variant; otherwise it converts the raw decoded
map's `"code"` entry with `int(...)`; it raises the JSON decode error
when the response body is not JSON, and raises when the decoded object
has no `"code"` key (there `int(None)` fails). -/
theorem api_error_code_accessor :
    (∀ (content : Option Json) (v : ErrorBodyVariant) (entries : List (String × Json)),
      bodyAccessor content = .ok (.structured v entries) →
      ∃ n, structuredCode entries = some n ∧ codeAccessor content = .ok n)
    ∧ (∀ (content : Option Json) (entries : List (String × Json)),
      bodyAccessor content = .ok (.raw entries) →
      codeAccessor content = rawCodeParse entries)
    ∧ codeAccessor none = .error .jsonDecodeError
    ∧ (∀ entries, dictGet "code" entries = none →
      codeAccessor (some (.obj entries)) = .error .typeError) := by
  refine ⟨?_, ?_, rfl, ?_⟩
  · intro content v entries h
    have hval : validatePayload (variantFields v) entries = true := by
      match content with
      | none => simp [bodyAccessor] at h
      | some (.obj es) =>
        have hm : matchBody modelsInOrder es = .structured v entries := by
          simpa [bodyAccessor] using h
        obtain ⟨rfl, hv⟩ := matchBody_structured modelsInOrder es entries v hm
        exact hv
      | some .null => simp [bodyAccessor] at h
      | some (.bool b) => simp [bodyAccessor] at h
      | some (.int n) => simp [bodyAccessor] at h
      | some (.float q) => simp [bodyAccessor] at h
      | some (.str s) => simp [bodyAccessor] at h
      | some (.arr l) => simp [bodyAccessor] at h
    have hcode := validated_structuredCode (variantFields v) entries
      (by cases v <;> decide) hval
    obtain ⟨n, hn⟩ := hcode
    exact ⟨n, hn, by simp [codeAccessor, h, hn]⟩
  · intro content entries h
    simp [codeAccessor, h]
  · intro entries h
    have hfalse : ∀ v ∈ modelsInOrder,
        keySetEq (variantFieldNames v) (dictKeys entries) = false := by
      intro v hv
      by_contra hh
      rw [Bool.not_eq_false, keySetEq_iff] at hh
      have hcodek : ("code" : String) ∈ variantFieldNames v := by cases v <;> decide
      have hsome := dictGet_isSome_of_mem "code" entries (hh.1 _ hcodek)
      rw [h] at hsome
      simp at hsome
    have hm : matchBody modelsInOrder entries = .raw entries :=
      matchBody_all_false modelsInOrder entries hfalse
    have hb : bodyAccessor (some (.obj entries)) = .ok (.raw entries) := by
      simp [bodyAccessor, hm]
    simp [codeAccessor, hb, rawCodeParse, h]

/-- A generic error payload with exactly the `{code, message}` field
set. -/
def genericPayload : List (String × Json) :=
  [("code", .int 40410000), ("message", .str "asset not found")]

/-- C4 witness: a structured generic body, a raw body with a `code` key,
and a body lacking `code`. -/
theorem api_error_code_accessor_witness :
    bodyAccessor (some (.obj genericPayload)) = .ok (.structured .generic genericPayload)
    ∧ (∃ n, structuredCode genericPayload = some n ∧
        codeAccessor (some (.obj genericPayload)) = .ok n)
    ∧ bodyAccessor (some (.obj [("code", Json.int 42), ("extra", Json.null)])) =
        .ok (.raw [("code", Json.int 42), ("extra", Json.null)])
    ∧ codeAccessor (some (.obj [("code", Json.int 42), ("extra", Json.null)])) =
        rawCodeParse [("code", Json.int 42), ("extra", Json.null)]
    ∧ dictGet "code" [("message", Json.str "no")] = none
    ∧ codeAccessor (some (.obj [("message", Json.str "no")])) = .error .typeError :=
  ⟨rfl,
   api_error_code_accessor.1 _ .generic _ rfl,
   rfl,
   api_error_code_accessor.2.1 _ _ rfl,
   rfl,
   api_error_code_accessor.2.2.2 _ rfl⟩

end Pypaca
